import Mathlib

/-!
Verification of the classifier-demo repository.

This file gives a shallow embedding of the repository's validator rules
(`src/classifier_demo/validators.py`, `src/classifier_demo/analyzer.py`),
its evaluation loop (`src/classifier_demo/optimization.py`), the CLI entry
flow (`main.py`), and — modelled from the specification where the deciding
code lives in external libraries (guardrails, dspy, better-profanity) —
the validator chain, the bootstrap few-shot optimizer, and the persisted
demonstration artifact.  Theorems settle the frozen claims about the spec.
-/

namespace ClassifierDemo

/-- Model of Python `str.lower()` (ASCII case mapping, which covers every
string the repository manipulates). -/
def pyLower (s : String) : String := ⟨s.data.map Char.toLower⟩

/-- Model of the Python substring test `needle in hay`. -/
def strContainsB (hay needle : String) : Bool := decide (needle.data <:+: hay.data)

/-- Model of Python `str.strip()`: drop leading and trailing whitespace. -/
def pyStrip (s : String) : String :=
  ⟨((s.data.dropWhile Char.isWhitespace).reverse.dropWhile Char.isWhitespace).reverse⟩

/-- Model of Python `repr` of a list of strings, as interpolated by an
f-string: `['a', 'b']`. -/
def pyReprStrList (xs : List String) : String :=
  "[" ++ String.intercalate ", " (xs.map (fun s => "'" ++ s ++ "'")) ++ "]"

/-- guardrails `ValidationResult`: either `PassResult` or `FailResult`
carrying an error message (`validators.py`, `analyzer.py`). -/
inductive ValidationResult where
  | pass
  | fail (errorMessage : String)
deriving DecidableEq, Repr

/-- True when the outcome is a `FailResult`. -/
def ValidationResult.isFail : ValidationResult → Bool
  | .pass => false
  | .fail _ => true

/-- config.py: `VALID_SENTIMENTS = list(get_args(Sentiment))`. -/
def VALID_SENTIMENTS : List String := ["POSITIVE", "NEGATIVE", "NEUTRAL"]

namespace ValidChoices

/-- `ValidChoices.validate` (identical in `validators.py` and `analyzer.py`):
pass when `value in self.choices`, otherwise a `FailResult` whose message is
the f-string naming the value and the choices list. -/
def validate (choices : List String) (value : String) : ValidationResult :=
  if value ∈ choices then .pass
  else .fail ("Value '" ++ value ++ "' is not in allowed choices: " ++ pyReprStrList choices)

end ValidChoices

namespace Analyzer

namespace NoProfanity

/-- `analyzer.py` `NoProfanity.DEFAULT_BLOCKLIST = {"shit", "damn", "crap"}`. -/
def DEFAULT_BLOCKLIST : List String := ["shit", "damn", "crap"]

/-- `analyzer.py` `NoProfanity.__init__`: `self.blocklist = blocklist or
self.DEFAULT_BLOCKLIST` (an empty set is falsy in Python). -/
def mkBlocklist (blocklist : Option (List String)) : List String :=
  match blocklist with
  | some l => if l.isEmpty then DEFAULT_BLOCKLIST else l
  | none => DEFAULT_BLOCKLIST

/-- `analyzer.py` `NoProfanity.validate`: lowercase the input, collect the
blocklist words occurring in it (the words themselves are used verbatim),
fail when any was found. -/
def validate (blocklist : List String) (value : String) : ValidationResult :=
  let text_lower := pyLower value
  let found := blocklist.filter (fun word => strContainsB text_lower word)
  if found.isEmpty then .pass
  else .fail "Input contains prohibited content. Please rephrase."

end NoProfanity

end Analyzer

namespace Validators

namespace NoCompetitors

/-- `validators.py` `NoCompetitors.__init__`: `self.competitors =
[c.lower() for c in competitors]`. -/
def competitorsInit (competitors : List String) : List String :=
  competitors.map pyLower

/-- `validators.py` `NoCompetitors.validate` on the stored (lowercased)
competitor list: lowercase the input, fail when any competitor occurs. -/
def validate (competitors : List String) (value : String) : ValidationResult :=
  let text_lower := pyLower value
  let found := competitors.filter (fun c => strContainsB text_lower c)
  if found.isEmpty then .pass
  else .fail "Input mentions competitors. Please focus on our products only."

end NoCompetitors

namespace NoPII

/-- `validators.py` `NoPII.PII_PATTERNS`: category name to regex source. -/
def PII_PATTERNS : List (String × String) :=
  [("email", "[a-zA-Z0-9._%+-]+@[a-zA-Z0-9.-]+\\.[a-zA-Z]\x7b2,\x7d"),
   ("phone", "\\b(\\+?1[-.\\s]?)?(\\(?\\d\x7b3\x7d\\)?[-.\\s]?)?\\d\x7b3\x7d[-.\\s]?\\d\x7b4\x7d\\b"),
   ("ssn", "\\b\\d\x7b3\x7d[-.\\s]?\\d\x7b2\x7d[-.\\s]?\\d\x7b4\x7d\\b")]

/-- `validators.py` `NoPII.validate`, with Python's `re.search` — an external
collaborator — passed in as `reSearch pattern value`: collect the requested
categories whose pattern matches, fail naming them. -/
def validate (reSearch : String → String → Bool) (detect : List String) (value : String) :
    ValidationResult :=
  let found_pii := detect.filter (fun t =>
    match PII_PATTERNS.lookup t with
    | some pattern => reSearch pattern value
    | none => false)
  if found_pii.isEmpty then .pass
  else .fail ("Input contains PII (" ++ String.intercalate ", " found_pii ++
    "). Please remove personal information.")

end NoPII

end Validators

/-- analyzer.py `SentimentResult`: structured result of `analyze`. -/
structure SentimentResult where
  sentiment : String
  explanation : String
deriving DecidableEq, Repr

namespace SentimentAnalyzer

/-- analyzer.py `SentimentAnalyzer.analyze`, with the model gateway (the
`dspy.Predict` call, an external collaborator) passed in as a function from
the input text to the (sentiment, explanation) response fields.  The input
guard is `NoProfanity(on_fail="exception")`, the output guard is
`ValidChoices(choices=VALID_SENTIMENTS, on_fail="exception")`; a guard whose
validator fails raises, modelled as `Except.error` carrying the failure
message, which propagates to the caller. -/
def analyze (gateway : String → String × String) (text : String) :
    Except String SentimentResult :=
  match Analyzer.NoProfanity.validate Analyzer.NoProfanity.DEFAULT_BLOCKLIST text with
  | .fail msg => .error msg
  | .pass =>
    let result := gateway text
    match ValidChoices.validate VALID_SENTIMENTS result.1 with
    | .fail msg => .error msg
    | .pass => .ok ⟨result.1, result.2⟩

/-- Number of gateway invocations `analyze` performs on `text`: one call,
unless the input guard raised first. -/
def gatewayCalls (text : String) : Nat :=
  match Analyzer.NoProfanity.validate Analyzer.NoProfanity.DEFAULT_BLOCKLIST text with
  | .fail _ => 0
  | .pass => 1

end SentimentAnalyzer

/-- Outcome of running `main.py`: configuration error, empty-input
rejection (`"No text provided."`), or an analysis result. -/
inductive MainOutcome where
  | missingKey
  | noText
  | analyzed (result : Except String SentimentResult)

/-- main.py `main`: check the API key, read `text`, reject when
`not text.strip()`, otherwise run `analyzer.analyze(text)`.  Returns the
outcome paired with the number of model-gateway calls performed. -/
def runMain (hasKey : Bool) (gateway : String → String × String) (text : String) :
    MainOutcome × Nat :=
  if !hasKey then (.missingKey, 0)
  else if pyStrip text = "" then (.noText, 0)
  else (.analyzed (SentimentAnalyzer.analyze gateway text), SentimentAnalyzer.gatewayCalls text)

/-- optimization.py `Example`: `{text: str, sentiment: Sentiment}`. -/
structure Example where
  text : String
  sentiment : String
deriving DecidableEq, Repr

/-- optimization.py `sentiment_metric`: predicted sentiment equals the
expected sentiment. -/
def sentiment_metric (ex : Example) (predicted : String) : Bool :=
  predicted == ex.sentiment

/-- Python runtime errors that the embedded code can raise. -/
inductive PyError where
  | zeroDivision
deriving DecidableEq, Repr

/-- Model of Python's `a / b` on integers: raises `ZeroDivisionError` when
`b = 0`, otherwise true division, modelled exactly in `ℚ`. -/
def pyDiv (a b : Nat) : Except PyError ℚ :=
  if b = 0 then .error .zeroDivision else .ok ((a : ℚ) / (b : ℚ))

/-- Number of test examples on which the classifier's prediction matches
the expected sentiment (the loop body of optimization.py `evaluate`). -/
def countCorrect (classify : String → String) (testset : List Example) : Nat :=
  (testset.filter (fun e => classify e.text == e.sentiment)).length

/-- optimization.py `evaluate`, with the module's prediction passed in as
`classify`: count the matches, then `return correct / len(testset)` — the
division is unguarded. -/
def evaluate (classify : String → String) (testset : List Example) : Except PyError ℚ :=
  pyDiv (countCorrect classify testset) testset.length

/-- A rule of the validator chain: a pure check from a string to an
outcome (spec §4.1). -/
abbrev Rule := String → ValidationResult

/-- Modelled from the spec: the validator chain (the guardrails `Guard`
machinery is an external library, not under src/).  Rules run in the given
order; the chain stops at the first `Fail` and surfaces that reason; if no
rule fails it returns `Pass`. -/
def runChain (rules : List Rule) (s : String) : ValidationResult :=
  match rules with
  | [] => .pass
  | r :: rest =>
    match r s with
    | .fail reason => .fail reason
    | .pass => runChain rest s

/-- Modelled from the spec: how many rules of the chain are evaluated on
`s` (the call count observable on a mock rule). -/
def chainEvalCount (rules : List Rule) (s : String) : Nat :=
  match rules with
  | [] => 0
  | r :: rest =>
    match r s with
    | .fail _ => 1
    | .pass => 1 + chainEvalCount rest s

/-- A demonstration accepted during bootstrapping: the training example
together with the model-predicted label. -/
structure BootstrappedDemo where
  ex : Example
  predicted : String
deriving DecidableEq, Repr

/-- Modelled from the spec: the bootstrap loop of the optimizer (§4.2; the
`dspy.BootstrapFewShot` implementation is an external library, not under
src/).  Each training example is classified; it is accepted only when the
predicted label equals the expected label, and acceptance stops once the
bootstrapped-count limit is reached. -/
def bootstrapDemos (classify : String → String) :
    List Example → Nat → List BootstrappedDemo
  | [], _ => []
  | _, 0 => []
  | e :: rest, Nat.succ k =>
    if sentiment_metric e (classify e.text) then
      ⟨e, classify e.text⟩ :: bootstrapDemos classify rest k
    else
      bootstrapDemos classify rest (Nat.succ k)

/-- The demonstration sets attached to the compiled classifier:
bootstrapped (model-produced, verified) demos and raw labeled demos. -/
structure DemoSets where
  bootstrapped : List BootstrappedDemo
  labeled : List Example
deriving DecidableEq, Repr

/-- Modelled from the spec: optimization.py `optimize` compiles the
predictor with `BootstrapFewShot(metric=sentiment_metric,
max_bootstrapped_demos, max_labeled_demos)`: bootstrapped demos are
accepted up to their cap, and raw labeled examples are included separately
up to their own cap. -/
def optimize (classify : String → String) (trainset : List Example)
    (max_bootstrapped_demos : Nat) (max_labeled_demos : Nat) : DemoSets :=
  { bootstrapped := bootstrapDemos classify trainset max_bootstrapped_demos,
    labeled := trainset.take max_labeled_demos }

/-- The global censor-word list of the better-profanity library: shared
mutable state that every `validators.py` `NoProfanity` instance reads. -/
abbrev ProfState := List String

/-- A rule evaluation threaded through the shared profanity state: it
returns its outcome and the (possibly updated) state. -/
abbrev StRule := ProfState → String → ValidationResult × ProfState

/-- Model of a rule evaluation with no access to shared state: the
validators of `validators.py`/`analyzer.py` whose `validate` reads only
the instance's own configuration and the input. -/
def liftPure (f : String → ValidationResult) : StRule :=
  fun st v => (f v, st)

namespace Validators

namespace NoProfanity

/-- Modelled from the spec's external collaborator: better-profanity's
`profanity.contains_profanity` (library code, not under src/) reports
whether any word of its global censor list occurs in the text,
case-insensitively. -/
def containsProfanity (censorWords : ProfState) (text : String) : Bool :=
  censorWords.any (fun w => strContainsB (pyLower text) (pyLower w))

/-- `validators.py` `NoProfanity.__init__`: `if custom_words:
profanity.add_censor_words(custom_words)` — a truthy (non-empty) list is
appended to the GLOBAL censor list shared by every instance. -/
def construct (custom_words : Option (List String)) (st : ProfState) : ProfState :=
  match custom_words with
  | some ws => if ws.isEmpty then st else st ++ ws
  | none => st

/-- `validators.py` `NoProfanity.validate`: pass unless
`profanity.contains_profanity(value)` holds of the current global state;
the evaluation itself never writes the state. -/
def validateS : StRule :=
  fun st value =>
    (if containsProfanity st value then
      .fail "Input contains prohibited content. Please rephrase."
    else .pass, st)

end NoProfanity

end Validators

/-- An evaluation of rule checks in sequence, threading the shared
profanity state and collecting each rule's outcome. -/
def evalRules : List StRule → ProfState → String → List ValidationResult × ProfState
  | [], st, _ => ([], st)
  | r :: rest, st, v =>
    let (o, st1) := r st v
    let (os, st2) := evalRules rest st1 v
    (o :: os, st2)

/-- A rule evaluation is side-effect-free when it leaves the shared state
untouched for every state and input. -/
def sideEffectFree (r : StRule) : Prop :=
  ∀ st v, (r st v).2 = st

/-- A persisted demonstration pair: input text, output label, output
explanation (spec §6). -/
structure Demonstration where
  text : String
  sentiment : String
  explanation : String
deriving DecidableEq, Repr

/-- Modelled from the spec: the serialized artifact format (the
`optimized.save`/`predict.load` JSON handling is dspy library code, not
under src/), as a JSON-like tree. -/
inductive Json where
  | str (s : String)
  | arr (items : List Json)
  | obj (fields : List (String × Json))

/-- Extract a JSON string node. -/
def Json.getStr : Json → Option String
  | .str s => some s
  | _ => none

/-- Serialize one demonstration as a JSON object. -/
def Demonstration.toJson (d : Demonstration) : Json :=
  .obj [("text", .str d.text), ("sentiment", .str d.sentiment),
        ("explanation", .str d.explanation)]

/-- Parse one demonstration back from JSON. -/
def Demonstration.fromJson (j : Json) : Option Demonstration :=
  match j with
  | .obj fields => do
    let t ← (fields.lookup "text").bind Json.getStr
    let s ← (fields.lookup "sentiment").bind Json.getStr
    let e ← (fields.lookup "explanation").bind Json.getStr
    pure ⟨t, s, e⟩
  | _ => none

/-- Modelled from the spec: `save` writes the ordered demonstration list
as a JSON array. -/
def saveDemos (demos : List Demonstration) : Json :=
  .arr (demos.map Demonstration.toJson)

/-- Parse a list of demonstration objects, failing on the first malformed
entry. -/
def loadDemoList : List Json → Option (List Demonstration)
  | [] => some []
  | j :: rest =>
    match Demonstration.fromJson j, loadDemoList rest with
    | some d, some ds => some (d :: ds)
    | _, _ => none

/-- Modelled from the spec: `load` reads the artifact back into the
ordered demonstration list. -/
def loadDemos (j : Json) : Option (List Demonstration) :=
  match j with
  | .arr items => loadDemoList items
  | _ => none

/-! Helper lemmas shared by the claim theorems. -/

theorem validChoices_pass_iff (choices : List String) (value : String) :
    ValidChoices.validate choices value = .pass ↔ value ∈ choices := by
  unfold ValidChoices.validate
  split <;> simp_all

theorem validChoices_fail_of_not_mem {choices : List String} {value : String}
    (h : value ∉ choices) :
    ValidChoices.validate choices value =
      .fail ("Value '" ++ value ++ "' is not in allowed choices: " ++ pyReprStrList choices) := by
  unfold ValidChoices.validate
  split <;> simp_all

theorem filterRule_isFail_iff (p : String → Bool) (l : List String) (msg : String) :
    ((if (l.filter p).isEmpty then ValidationResult.pass else .fail msg)).isFail = true ↔
      ∃ x ∈ l, p x := by
  by_cases hc : (l.filter p).isEmpty
  · rw [if_pos hc]
    rw [List.isEmpty_iff, List.filter_eq_nil_iff] at hc
    constructor
    · intro hfalse
      exact absurd hfalse (by decide)
    · rintro ⟨x, hxl, hxp⟩
      exact absurd hxp (hc x hxl)
  · rw [if_neg hc]
    have hne : l.filter p ≠ [] := fun hnil => hc (by simp [hnil])
    rcases List.exists_mem_of_ne_nil _ hne with ⟨x, hx⟩
    rcases List.mem_filter.mp hx with ⟨hxl, hxp⟩
    exact ⟨fun _ => ⟨x, hxl, hxp⟩, fun _ => rfl⟩

theorem runChain_of_all_pass (rules : List Rule) (s : String)
    (h : ∀ r ∈ rules, r s = .pass) : runChain rules s = .pass := by
  induction rules with
  | nil => rfl
  | cons r rest ih =>
    have hr : r s = .pass := h r (List.mem_cons_self r rest)
    have hrest : ∀ r' ∈ rest, r' s = .pass := fun r' h' => h r' (List.mem_cons_of_mem r h')
    simp [runChain, hr, ih hrest]

theorem runChain_first_fail (pre post : List Rule) (f : Rule) (s reason : String)
    (hpre : ∀ r ∈ pre, r s = .pass) (hf : f s = .fail reason) :
    runChain (pre ++ f :: post) s = .fail reason ∧
    chainEvalCount (pre ++ f :: post) s = pre.length + 1 := by
  induction pre with
  | nil => simp [runChain, chainEvalCount, hf]
  | cons r rest ih =>
    have hr : r s = .pass := hpre r (List.mem_cons_self r rest)
    have hrest : ∀ r' ∈ rest, r' s = .pass := fun r' h' => hpre r' (List.mem_cons_of_mem r h')
    have hih := ih hrest
    refine ⟨?_, ?_⟩
    · simpa [runChain, hr] using hih.1
    · have hstep : chainEvalCount ((r :: rest) ++ f :: post) s =
          1 + chainEvalCount (rest ++ f :: post) s := by
        rw [List.cons_append]
        simp only [chainEvalCount, hr]
      rw [hstep, hih.2, List.length_cons]
      omega

theorem bootstrapDemos_length_le (classify : String → String) :
    ∀ (ts : List Example) (k : Nat), (bootstrapDemos classify ts k).length ≤ k := by
  intro ts
  induction ts with
  | nil => intro k; simp [bootstrapDemos]
  | cons e rest ih =>
    intro k
    cases k with
    | zero => simp [bootstrapDemos]
    | succ k =>
      by_cases hm : sentiment_metric e (classify e.text)
      · simp only [bootstrapDemos, hm, if_pos, List.length_cons]
        exact Nat.succ_le_succ (ih k)
      · simp only [bootstrapDemos, hm, if_neg, Bool.false_eq_true, if_false]
        exact ih (Nat.succ k)

theorem bootstrapDemos_verified (classify : String → String) :
    ∀ (ts : List Example) (k : Nat) (d : BootstrappedDemo),
      d ∈ bootstrapDemos classify ts k → d.predicted = d.ex.sentiment := by
  intro ts
  induction ts with
  | nil => intro k d hd; simp [bootstrapDemos] at hd
  | cons e rest ih =>
    intro k d hd
    cases k with
    | zero => simp [bootstrapDemos] at hd
    | succ k =>
      by_cases hm : sentiment_metric e (classify e.text)
      · simp only [bootstrapDemos, hm, if_pos] at hd
        rcases List.mem_cons.mp hd with heq | hmem
        · subst heq
          exact eq_of_beq hm
        · exact ih k d hmem
      · simp only [bootstrapDemos, hm, Bool.false_eq_true, if_false] at hd
        exact ih (Nat.succ k) d hd

theorem fromJson_toJson (d : Demonstration) :
    Demonstration.fromJson (Demonstration.toJson d) = some d := rfl

/-! Claim theorems. -/

/-- C1: for every ordered sequence of rules and every input string, the
validator chain evaluates rules in the given order and stops at the first
rule returning Fail, surfacing that rule's reason and evaluating no
subsequent rule (the evaluation count is the failing rule's position); if
no rule fails, the chain returns Pass. -/
theorem chain_fail_fast_and_pass :
    (∀ (pre post : List Rule) (f : Rule) (s reason : String),
      (∀ r ∈ pre, r s = .pass) → f s = .fail reason →
      runChain (pre ++ f :: post) s = .fail reason ∧
      chainEvalCount (pre ++ f :: post) s = pre.length + 1) ∧
    (∀ (rules : List Rule) (s : String),
      (∀ r ∈ rules, r s = .pass) → runChain rules s = .pass) :=
  ⟨runChain_first_fail, runChain_of_all_pass⟩

/-- Witness for C1 at a concrete chain: one passing rule, then a failing
rule, then a rule that would fail with another reason; the chain surfaces
the first failure and evaluates exactly two rules. -/
theorem chain_fail_fast_witness :
    runChain [fun _ => .pass, fun _ => .fail "bad", fun _ => .fail "other"] "x" =
      .fail "bad" ∧
    chainEvalCount [fun _ => .pass, fun _ => .fail "bad", fun _ => .fail "other"] "x" = 2 := by
  have h := chain_fail_fast_and_pass.1 [fun _ => .pass] [fun _ => .fail "other"]
    (fun _ => .fail "bad") "x" "bad" (by intro r hr; simp at hr; subst hr; rfl) rfl
  exact ⟨h.1, h.2⟩

/-- C4: for every configured choice set and every input value, the
Choice-membership rule's validate returns Pass iff the value is a member of
the configured set, and on failure its message names the invalid value (as
a substring) and the allowed set. -/
theorem validChoices_pass_iff_mem :
    ∀ (choices : List String) (value : String),
      (ValidChoices.validate choices value = .pass ↔ value ∈ choices) ∧
      (value ∉ choices →
        ValidChoices.validate choices value =
          .fail ("Value '" ++ value ++ "' is not in allowed choices: " ++
            pyReprStrList choices) ∧
        strContainsB
          ("Value '" ++ value ++ "' is not in allowed choices: " ++ pyReprStrList choices)
          value = true) := by
  intro choices value
  refine ⟨validChoices_pass_iff choices value, fun h => ⟨validChoices_fail_of_not_mem h, ?_⟩⟩
  simp only [strContainsB, decide_eq_true_eq, String.data_append]
  exact ⟨"Value '".data, ("' is not in allowed choices: " ++ pyReprStrList choices).data,
    by simp⟩

/-- Witness for C4: the sentiment choice set accepts a member and rejects a
non-member, naming it in the message. -/
theorem validChoices_witness :
    ValidChoices.validate VALID_SENTIMENTS "POSITIVE" = .pass ∧
    ValidChoices.validate VALID_SENTIMENTS "HAPPY" =
      .fail ("Value '" ++ "HAPPY" ++ "' is not in allowed choices: " ++
        pyReprStrList VALID_SENTIMENTS) :=
  ⟨(validChoices_pass_iff_mem VALID_SENTIMENTS "POSITIVE").1.mpr (by decide),
   ((validChoices_pass_iff_mem VALID_SENTIMENTS "HAPPY").2 (by decide)).1⟩

/-- C9: saving a demonstration set and loading it back reproduces a
demonstration set identical in order and content to the one saved. -/
theorem saveDemos_loadDemos_roundtrip :
    ∀ demos : List Demonstration, loadDemos (saveDemos demos) = some demos := by
  intro demos
  induction demos with
  | nil => rfl
  | cons d rest ih =>
    have ih' : loadDemoList (rest.map Demonstration.toJson) = some rest := ih
    show loadDemoList (Demonstration.toJson d :: rest.map Demonstration.toJson) =
      some (d :: rest)
    simp [loadDemoList, fromJson_toJson, ih']

/-- C7, counterexample: with blocklist `{"SHIT"}` and input `"this is
shit"`, the term does occur in the text when both are compared
case-insensitively, yet `NoProfanity.validate` passes — the blocklist term
is used verbatim, so the match is not case-insensitive in the term. -/
theorem noProfanity_case_counterexample :
    ¬ ((Analyzer.NoProfanity.validate ["SHIT"] "this is shit").isFail = true ↔
      ∃ w ∈ ["SHIT"], strContainsB (pyLower "this is shit") (pyLower w) = true) := by
  decide

/-- C7, amended: NoProfanity fails iff some blocklist term occurs verbatim
as a substring of the lowercased text; NoCompetitors (which lowercases its
terms at construction) fails iff some competitor term occurs
case-insensitively; blocklist `{"shit"}` rejects `"this is shit"` with the
prohibited-content reason and passes `"this is great"`. -/
theorem denylist_substring_semantics :
    (∀ (blocklist : List String) (value : String),
      (Analyzer.NoProfanity.validate blocklist value).isFail = true ↔
        ∃ w ∈ blocklist, strContainsB (pyLower value) w = true) ∧
    (∀ (competitors : List String) (value : String),
      (Validators.NoCompetitors.validate
          (Validators.NoCompetitors.competitorsInit competitors) value).isFail = true ↔
        ∃ c ∈ competitors, strContainsB (pyLower value) (pyLower c) = true) ∧
    Analyzer.NoProfanity.validate ["shit"] "this is shit" =
      .fail "Input contains prohibited content. Please rephrase." ∧
    Analyzer.NoProfanity.validate ["shit"] "this is great" = .pass := by
  refine ⟨?_, ?_, by decide, by decide⟩
  · intro blocklist value
    exact filterRule_isFail_iff (fun word => strContainsB (pyLower value) word) blocklist _
  · intro competitors value
    have h := filterRule_isFail_iff (fun c => strContainsB (pyLower value) c)
      (Validators.NoCompetitors.competitorsInit competitors)
      "Input mentions competitors. Please focus on our products only."
    rw [show (Validators.NoCompetitors.validate
        (Validators.NoCompetitors.competitorsInit competitors) value).isFail =
        (if ((Validators.NoCompetitors.competitorsInit competitors).filter
          (fun c => strContainsB (pyLower value) c)).isEmpty then ValidationResult.pass
          else .fail "Input mentions competitors. Please focus on our products only.").isFail
      from rfl, h]
    constructor
    · rintro ⟨c, hc, hocc⟩
      rcases List.mem_map.mp hc with ⟨c0, hc0, rfl⟩
      exact ⟨c0, hc0, hocc⟩
    · rintro ⟨c0, hc0, hocc⟩
      exact ⟨pyLower c0, List.mem_map.mpr ⟨c0, hc0, rfl⟩, hocc⟩

/-- Witness for C7's amended theorem: the competitor rule built from
`["AcmeCorp"]` rejects a differently-cased mention. -/
theorem denylist_substring_witness :
    (Validators.NoCompetitors.validate
      (Validators.NoCompetitors.competitorsInit ["AcmeCorp"]) "I prefer ACMECORP products").isFail
      = true := by
  exact (denylist_substring_semantics.2.1 ["AcmeCorp"] "I prefer ACMECORP products").mpr
    ⟨"AcmeCorp", by decide, by decide⟩

/-- C8, counterexample: constructing a `validators.py` `NoProfanity` with
custom words mutates the global better-profanity censor list, flipping the
outcome another instance returns for the same string — rule construction
is not free of cross-instance effects. -/
theorem rule_construction_interference :
    (Validators.NoProfanity.validateS [] "flibber").1 = ValidationResult.pass ∧
    Validators.NoProfanity.construct (some ["flibber"]) [] = ["flibber"] ∧
    (Validators.NoProfanity.validateS
        (Validators.NoProfanity.construct (some ["flibber"]) []) "flibber").1 =
      ValidationResult.fail "Input contains prohibited content. Please rephrase." := by
  decide

/-- C8, amended: evaluating any rule is side-effect-free and idempotent —
`validate` never writes the shared profanity state, so re-evaluating an
evaluation's resulting state reproduces its outcome, and a sequence of
side-effect-free rule evaluations yields each rule the outcome it would
have alone, independent of order; however, CONSTRUCTING `validators.py`'s
`NoProfanity` with custom words mutates the shared state (see the
counterexample). -/
theorem rules_side_effect_free_order_independent :
    (∀ f : String → ValidationResult, sideEffectFree (liftPure f)) ∧
    sideEffectFree Validators.NoProfanity.validateS ∧
    (∀ r : StRule, sideEffectFree r → ∀ st v, r ((r st v).2) v = r st v) ∧
    (∀ (rules : List StRule) (st : ProfState) (v : String),
      (∀ r ∈ rules, sideEffectFree r) →
      evalRules rules st v = (rules.map (fun r => (r st v).1), st)) := by
  refine ⟨fun f st v => rfl, fun st v => rfl, ?_, ?_⟩
  · intro r hr st v
    rw [hr st v]
  · intro rules
    induction rules with
    | nil => intro st v _; rfl
    | cons r rest ih =>
      intro st v h
      have hr : sideEffectFree r := h r (List.mem_cons_self r rest)
      have hrest : ∀ r' ∈ rest, sideEffectFree r' := fun r' h' =>
        h r' (List.mem_cons_of_mem r h')
      have key : evalRules (r :: rest) st v =
          ((r st v).1 :: (evalRules rest ((r st v).2) v).1,
            (evalRules rest ((r st v).2) v).2) := rfl
      rw [key, hr st v, ih st v hrest]
      simp

/-- Witness for C8's amended theorem: a two-rule sequence of the output
guard and the profanity rule leaves the state alone and gives each rule
its standalone outcome. -/
theorem rules_side_effect_free_witness :
    evalRules [liftPure (ValidChoices.validate VALID_SENTIMENTS),
        Validators.NoProfanity.validateS] ["badword"] "POSITIVE" =
      ([ValidationResult.pass, ValidationResult.pass], ["badword"]) := by
  rw [rules_side_effect_free_order_independent.2.2.2
    [liftPure (ValidChoices.validate VALID_SENTIMENTS), Validators.NoProfanity.validateS]
    ["badword"] "POSITIVE" ?_]
  · decide
  · intro r hrmem
    rcases List.mem_cons.mp hrmem with h1 | h2
    · subst h1
      exact rules_side_effect_free_order_independent.1 _
    · rcases List.mem_cons.mp h2 with h3 | h4
      · subst h3
        exact rules_side_effect_free_order_independent.2.1
      · simp at h4

/-- C5: for every gateway behavior and input text, analyze never returns a
result whose sentiment is outside {POSITIVE, NEGATIVE, NEUTRAL}; when the
gateway's sentiment is out of that set (and the input guard passed), the
output validator's named failure propagates to the caller as the error. -/
theorem analyze_sentiment_always_valid :
    (∀ (gateway : String → String × String) (text : String) (r : SentimentResult),
      SentimentAnalyzer.analyze gateway text = .ok r → r.sentiment ∈ VALID_SENTIMENTS) ∧
    (∀ (gateway : String → String × String) (text : String),
      Analyzer.NoProfanity.validate Analyzer.NoProfanity.DEFAULT_BLOCKLIST text = .pass →
      (gateway text).1 ∉ VALID_SENTIMENTS →
      SentimentAnalyzer.analyze gateway text =
        .error ("Value '" ++ (gateway text).1 ++ "' is not in allowed choices: " ++
          pyReprStrList VALID_SENTIMENTS)) := by
  constructor
  · intro gateway text r hok
    unfold SentimentAnalyzer.analyze at hok
    rcases h1 : Analyzer.NoProfanity.validate Analyzer.NoProfanity.DEFAULT_BLOCKLIST text with
      _ | msg
    · simp only [h1] at hok
      rcases h2 : ValidChoices.validate VALID_SENTIMENTS (gateway text).1 with _ | msg2
      · simp only [h2] at hok
        cases hok
        exact (validChoices_pass_iff _ _).mp h2
      · simp only [h2] at hok
        exact Except.noConfusion hok
    · simp only [h1] at hok
      exact Except.noConfusion hok
  · intro gateway text h1 h2
    unfold SentimentAnalyzer.analyze
    simp only [h1, validChoices_fail_of_not_mem h2]

/-- Witness for C5: a gateway answering the out-of-set label HAPPY makes
analyze propagate the output validator's named failure. -/
theorem analyze_sentiment_witness :
    SentimentAnalyzer.analyze (fun _ => ("HAPPY", "an explanation")) "nice day" =
      .error ("Value '" ++ "HAPPY" ++ "' is not in allowed choices: " ++
        pyReprStrList VALID_SENTIMENTS) :=
  analyze_sentiment_always_valid.2 (fun _ => ("HAPPY", "an explanation")) "nice day"
    (by decide) (by decide)

/-- C6: for the empty text input, main rejects with the empty-input outcome
before constructing the analyzer, and zero model-gateway calls occur,
whatever the gateway would answer. -/
theorem main_empty_input_no_gateway_call :
    ∀ gateway : String → String × String,
      runMain true gateway "" = (MainOutcome.noText, 0) :=
  fun _ => rfl

/-- C3, code evaluated at the failing input: evaluate on the empty test set
reaches the unguarded division `correct / len(testset)` with a zero
denominator and raises ZeroDivisionError — not a guarded, named
empty-set error. -/
theorem evaluate_empty_testset_zero_division :
    ∀ classify : String → String,
      evaluate classify [] = .error PyError.zeroDivision :=
  fun _ => rfl

/-- C10: on every non-empty test set, evaluate returns the number of exact
label matches divided by the test set size, a value in [0, 1]; a classifier
that returns the expected label on every example yields accuracy 1. -/
theorem evaluate_accuracy :
    ∀ (classify : String → String) (testset : List Example),
      testset ≠ [] →
      evaluate classify testset =
        .ok ((countCorrect classify testset : ℚ) / (testset.length : ℚ)) ∧
      (0 : ℚ) ≤ (countCorrect classify testset : ℚ) / (testset.length : ℚ) ∧
      (countCorrect classify testset : ℚ) / (testset.length : ℚ) ≤ 1 ∧
      ((∀ e ∈ testset, classify e.text = e.sentiment) →
        evaluate classify testset = .ok 1) := by
  intro classify testset hne
  have hlen : testset.length ≠ 0 := fun h => hne (List.length_eq_zero.mp h)
  have hok : evaluate classify testset =
      .ok ((countCorrect classify testset : ℚ) / (testset.length : ℚ)) := by
    unfold evaluate pyDiv
    rw [if_neg hlen]
  have hle : countCorrect classify testset ≤ testset.length :=
    List.length_filter_le _ _
  have hpos : (0 : ℚ) < (testset.length : ℚ) := by
    exact_mod_cast Nat.pos_of_ne_zero hlen
  refine ⟨hok, ?_, ?_, ?_⟩
  · positivity
  · rw [div_le_one hpos]
    exact_mod_cast hle
  · intro hall
    have hfilter : testset.filter (fun e => classify e.text == e.sentiment) = testset :=
      List.filter_eq_self.mpr (fun e he => by
        simp only [beq_iff_eq]
        exact hall e he)
    have hcc : countCorrect classify testset = testset.length := by
      unfold countCorrect
      rw [hfilter]
    rw [hok, hcc]
    congr 1
    exact div_self (Nat.cast_ne_zero.mpr hlen)

/-- Witness for C10: the two-example POSITIVE/NEGATIVE dataset with a stub
classifier returning the expected label for each yields accuracy 1. -/
theorem evaluate_accuracy_witness :
    evaluate (fun t => if t = "I love this!" then "POSITIVE" else "NEGATIVE")
      [⟨"I love this!", "POSITIVE"⟩, ⟨"Terrible.", "NEGATIVE"⟩] = .ok 1 :=
  (evaluate_accuracy (fun t => if t = "I love this!" then "POSITIVE" else "NEGATIVE")
    [⟨"I love this!", "POSITIVE"⟩, ⟨"Terrible.", "NEGATIVE"⟩] (by decide)).2.2.2 (by decide)

/-- C2: for every training set and configured limits, the bootstrapped
demonstrations never exceed their cap, the labeled demonstrations never
exceed theirs, and every bootstrapped demonstration's predicted label
equals its expected ground-truth label. -/
theorem optimize_caps_and_verified :
    ∀ (classify : String → String) (trainset : List Example) (maxB maxL : Nat),
      (optimize classify trainset maxB maxL).bootstrapped.length ≤ maxB ∧
      (optimize classify trainset maxB maxL).labeled.length ≤ maxL ∧
      ∀ d ∈ (optimize classify trainset maxB maxL).bootstrapped,
        d.predicted = d.ex.sentiment := by
  intro classify trainset maxB maxL
  refine ⟨bootstrapDemos_length_le classify trainset maxB,
    List.length_take_le maxL trainset, ?_⟩
  intro d hd
  exact bootstrapDemos_verified classify trainset maxB d hd

/-- Witness for C2: a one-example training set with caps 1 keeps both sets
within bounds, and the single bootstrapped demonstration is verified. -/
theorem optimize_caps_witness :
    (optimize (fun _ => "POSITIVE")
      [⟨"I love this!", "POSITIVE"⟩] 1 1).bootstrapped.length ≤ 1 ∧
    (optimize (fun _ => "POSITIVE")
      [⟨"I love this!", "POSITIVE"⟩] 1 1).labeled.length ≤ 1 ∧
    (⟨⟨"I love this!", "POSITIVE"⟩, "POSITIVE"⟩ : BootstrappedDemo).predicted =
      (⟨⟨"I love this!", "POSITIVE"⟩, "POSITIVE"⟩ : BootstrappedDemo).ex.sentiment := by
  have h := optimize_caps_and_verified (fun _ => "POSITIVE")
    [⟨"I love this!", "POSITIVE"⟩] 1 1
  exact ⟨h.1, h.2.1, h.2.2 ⟨⟨"I love this!", "POSITIVE"⟩, "POSITIVE"⟩ (by decide)⟩

end ClassifierDemo
